import Mathlib

/-!
Verification development for the RAGStack ingestion pipeline
(`src/scraper/web_scraper.py` and `src/scraper/yt_scraper.py`).

Python text is modelled as `List Char`; Python string slicing
`text[start:end]` becomes `(text.drop start).take (end - start)`.
External library calls (HTTP fetches, the YouTube API, JSON text parsing,
file writes) are modelled as oracle parameters or as values of small
inductive types; everything else is translated directly from the source.
-/

namespace RAGStack

/-! ## Chunking (`split_into_chunks`, web_scraper.py 373-399, yt_scraper.py 407-433)

The Python loop is

    chunks = []
    start = 0
    while start < len(text):
        end = start + chunk_size
        chunks.append(text[start:end])
        start += chunk_size - overlap
    return chunks

`split_go` is the loop with an explicit fuel argument (the loop does not
terminate when `overlap >= chunk_size`, so the recursion is not
well-founded in general); `split_into_chunks` runs it with fuel
`text.length + 1`, which is shown sufficient whenever the documented
precondition `overlap < chunk_size` holds. -/

def split_go (text : List Char) (chunk_size overlap : Nat) : Nat → Nat → List (List Char)
  | 0, _ => []
  | fuel + 1, start =>
      if start < text.length then
        ((text.drop start).take chunk_size) :: split_go text chunk_size overlap fuel (start + (chunk_size - overlap))
      else []

def split_into_chunks (text : List Char) (chunk_size overlap : Nat) : List (List Char) :=
  split_go text chunk_size overlap (text.length + 1) 0

/-- When the step `chunk_size - overlap` is positive, the loop needs at most
`text.length - start` further iterations, so any two sufficient fuels give
the same chunk list: the loop terminates. -/
theorem split_go_fuel (text : List Char) (c o : Nat) (ho : o < c) :
    ∀ f g start, text.length - start ≤ f → text.length - start ≤ g →
      split_go text c o f start = split_go text c o g start := by
  intro f
  induction f with
  | zero =>
    intro g start hf hg
    have hs : text.length ≤ start := Nat.le_of_sub_eq_zero (Nat.le_zero.mp hf)
    cases g with
    | zero => rfl
    | succ g =>
      simp only [split_go]
      rw [if_neg (by omega)]
  | succ f ih =>
    intro g start hf hg
    cases g with
    | zero =>
      have hs : text.length ≤ start := Nat.le_of_sub_eq_zero (Nat.le_zero.mp hg)
      simp only [split_go]
      rw [if_neg (by omega)]
    | succ g =>
      simp only [split_go]
      by_cases hlt : start < text.length
      · rw [if_pos hlt, if_pos hlt]
        have hstep : 1 ≤ c - o := by omega
        have := ih g (start + (c - o)) (by omega) (by omega)
        rw [this]
      · rw [if_neg hlt, if_neg hlt]

/-- With sufficient fuel, the `k`-th chunk starts at offset `k * (chunk_size - overlap)`
past `start` and is the `chunk_size`-wide slice of the text there. -/
theorem split_go_getElem (text : List Char) (c o : Nat) (ho : o < c) :
    ∀ k f start, text.length - start ≤ f →
      (split_go text c o f start)[k]? =
        if start + k * (c - o) < text.length then
          some ((text.drop (start + k * (c - o))).take c)
        else none := by
  intro k
  induction k with
  | zero =>
    intro f start hf
    cases f with
    | zero =>
      have hs : text.length ≤ start := Nat.le_of_sub_eq_zero (Nat.le_zero.mp hf)
      simp only [split_go]
      rw [if_neg (by omega)]
      simp
    | succ f =>
      simp only [split_go]
      by_cases hlt : start < text.length
      · rw [if_pos hlt]
        simp only [Nat.zero_mul, Nat.add_zero]
        rw [if_pos hlt]
        simp
      · rw [if_neg hlt]
        simp only [Nat.zero_mul, Nat.add_zero]
        rw [if_neg hlt]
        simp
  | succ k ih =>
    intro f start hf
    cases f with
    | zero =>
      have hs : text.length ≤ start := Nat.le_of_sub_eq_zero (Nat.le_zero.mp hf)
      simp only [split_go]
      rw [if_neg (by omega)]
      simp
    | succ f =>
      simp only [split_go]
      by_cases hlt : start < text.length
      · rw [if_pos hlt]
        simp only [List.getElem?_cons_succ]
        rw [ih f (start + (c - o)) (by omega)]
        have harith : start + (c - o) + k * (c - o) = start + (k + 1) * (c - o) := by ring_nf
        rw [harith]
      · rw [if_neg hlt]
        rw [if_neg (by omega)]
        simp

/-- C1 (amended): for `0 < overlap < window_size`, `split_into_chunks` terminates
(the loop is fuel-independent once the fuel reaches the text length) and returns an
ordered sequence of substrings in which the `k`-th chunk is the slice of the text
starting at offset `k * (window_size - overlap)`; every chunk has length
`min window_size (text.length - start_offset)` — so a chunk whose window does not
fit fully at the end of the text may be shorter than `window_size` even when it is
not the last chunk — and every character position of the input is covered by some
chunk at the corresponding position. -/
theorem C1_chunking (text : List Char) (c o : Nat) (h1 : 0 < o) (h2 : o < c) :
    (∀ fuel, text.length ≤ fuel →
        split_go text c o fuel 0 = split_into_chunks text c o)
    ∧ (∀ k, (split_into_chunks text c o)[k]? =
        if k * (c - o) < text.length then
          some ((text.drop (k * (c - o))).take c)
        else none)
    ∧ (∀ k l, (split_into_chunks text c o)[k]? = some l →
        l.length = min c (text.length - k * (c - o)))
    ∧ (∀ i, i < text.length → ∃ k l,
        (split_into_chunks text c o)[k]? = some l ∧
        k * (c - o) ≤ i ∧ l[i - k * (c - o)]? = text[i]?) := by
  have hchar : ∀ k, (split_into_chunks text c o)[k]? =
      if k * (c - o) < text.length then
        some ((text.drop (k * (c - o))).take c)
      else none := by
    intro k
    have := split_go_getElem text c o h2 k (text.length + 1) 0 (by omega)
    simpa using this
  refine ⟨?_, hchar, ?_, ?_⟩
  · intro fuel hfuel
    exact split_go_fuel text c o h2 fuel (text.length + 1) 0 (by omega) (by omega)
  · intro k l hl
    rw [hchar k] at hl
    by_cases hk : k * (c - o) < text.length
    · rw [if_pos hk] at hl
      cases hl
      simp [List.length_take, List.length_drop]
    · rw [if_neg hk] at hl
      cases hl
  · intro i hi
    set step := c - o with hstep
    have hstep1 : 1 ≤ step := by omega
    refine ⟨i / step, (text.drop (i / step * step)).take c, ?_, ?_, ?_⟩
    · rw [hchar (i / step)]
      rw [if_pos (by
        have := Nat.div_mul_le_self i step
        omega)]
    · exact Nat.div_mul_le_self i step
    · have hle : i / step * step ≤ i := Nat.div_mul_le_self i step
      have hlt2 : i < i / step * step + step := by
        have := Nat.mod_lt i (show 0 < step by omega)
        have hdm : step * (i / step) + i % step = i := Nat.div_add_mod i step
        rw [Nat.mul_comm] at hdm
        omega
      have hidx : i - i / step * step < c := by omega
      rw [List.getElem?_take_of_lt hidx, List.getElem?_drop]
      congr 1
      omega

/-- C1 witness: the amended chunking theorem instantiated at the concrete text
"abcde" with window size 4 and overlap 2. -/
theorem C1_chunking_witness :
    0 < 2 ∧ 2 < 4 ∧
    ((∀ fuel, ("abcde".toList).length ≤ fuel →
        split_go "abcde".toList 4 2 fuel 0 = split_into_chunks "abcde".toList 4 2)
    ∧ (∀ k, (split_into_chunks "abcde".toList 4 2)[k]? =
        if k * (4 - 2) < ("abcde".toList).length then
          some ((("abcde".toList).drop (k * (4 - 2))).take 4)
        else none)
    ∧ (∀ k l, (split_into_chunks "abcde".toList 4 2)[k]? = some l →
        l.length = min 4 (("abcde".toList).length - k * (4 - 2)))
    ∧ (∀ i, i < ("abcde".toList).length → ∃ k l,
        (split_into_chunks "abcde".toList 4 2)[k]? = some l ∧
        k * (4 - 2) ≤ i ∧ l[i - k * (4 - 2)]? = ("abcde".toList)[i]?)) :=
  ⟨by decide, by decide, C1_chunking ("abcde".toList) 4 2 (by decide) (by decide)⟩

/-- C1 counterexample: with window size 4 and overlap 2 on the 5-character text
"abcde", the chunks are "abcd", "cde", "e"; the chunk at index 1 is not the last
chunk and yet has length 3, not the window size 4 — refuting the claim that every
chunk except possibly the last has length exactly `window_size`. -/
theorem C1_counterexample :
    split_into_chunks ("abcde".toList) 4 2 =
      ["abcd".toList, "cde".toList, "e".toList]
    ∧ ("cde".toList).length ≠ 4 := by
  constructor
  · decide
  · decide

/-! ## Generation Client (`Generator.generate_response`, web_scraper.py 270-314,
yt_scraper.py 479-523)

The streamed HTTP body is a sequence of newline-delimited lines.  Each line is
modelled by what `json.loads` does to it: `empty` is a falsy line (skipped by
the `if line:` guard), `malformed` is a line on which `json.loads` raises
`JSONDecodeError` (caught, logged, loop continues), and `json r d` is a parsed
object whose optional `response` field is `r` and whose `done` field (absent
defaulting to false) is `d`.  The HTTP request itself is modelled by the
`requestOk` flag: `false` means `requests.post` or `raise_for_status` raised a
`RequestException`, which the except-branch turns into the empty string. -/

inductive StreamLine where
  | empty : StreamLine
  | malformed : StreamLine
  | json (response : Option String) (done : Bool) : StreamLine
deriving DecidableEq

/-- The `for line in response.iter_lines(...)` accumulation loop: append each
line's `response` fragment, stop when a line's `done` field is true. -/
def iter_lines : List StreamLine → String → String
  | [], acc => acc
  | line :: rest, acc =>
      match line with
      | .empty => iter_lines rest acc
      | .malformed => iter_lines rest acc
      | .json r d =>
          let acc1 := match r with
            | some s => acc ++ s
            | none => acc
          if d then acc1 else iter_lines rest acc1

/-- `Generator.generate_response`: returns the accumulated stream on success,
the sentinel when the accumulator is still empty (falsy) at end of stream, and
the empty string when the request itself failed. -/
def generate_response (requestOk : Bool) (lines : List StreamLine) : String :=
  if requestOk then
    let full_response := iter_lines lines ""
    if full_response ≠ "" then full_response else "Failed to generate a response."
  else ""

/-! ## Summarization worker chunk loops (`process_queue`, web_scraper.py 316-371,
yt_scraper.py 354-404)

For one artifact, the worker iterates `for i, chunk in enumerate(chunks)` and
calls `summarize(chunk)`.  Each chunk's generation outcome is modelled by an
oracle entry `Option String`: `some s` means `summarize` returned the string
`s` (which the worker then writes to the summary file for index `i`), `none`
means `summarize` raised.  The result is the list of `(chunk index, written
content)` pairs.  In web_scraper the call is wrapped in an inner
`try/except ... continue`, so a raising chunk is skipped and the loop
continues; in yt_scraper there is no inner handler, so the exception escapes
the for-loop to the per-artifact handler and the remaining chunks of that
artifact are abandoned. -/

def web_chunk_loop : Nat → List (Option String) → List (Nat × String)
  | _, [] => []
  | i, none :: rest => web_chunk_loop (i + 1) rest
  | i, some s :: rest => (i, s) :: web_chunk_loop (i + 1) rest

def yt_chunk_loop : Nat → List (Option String) → List (Nat × String)
  | _, [] => []
  | _, none :: _ => []
  | i, some s :: rest => (i, s) :: yt_chunk_loop (i + 1) rest

/-- The outer `while True` of `process_queue`: each queued artifact is handled
inside its own try/except, so one artifact's outcome never affects which other
artifacts are processed. -/
def process_artifacts (chunkLoop : List (Option String) → List (Nat × String))
    (arts : List (List (Option String))) : List (List (Nat × String)) :=
  arts.map chunkLoop

/-- Membership in the crawler variant's chunk loop output: exactly the chunks
whose generation succeeded are written, at their own index. -/
theorem web_chunk_loop_mem :
    ∀ (res : List (Option String)) (k i : Nat) (s : String),
      (i, s) ∈ web_chunk_loop k res ↔ ∃ m, i = k + m ∧ res[m]? = some (some s) := by
  intro res
  induction res with
  | nil =>
    intro k i s
    simp [web_chunk_loop]
  | cons r rest ih =>
    intro k i s
    cases r with
    | none =>
      simp only [web_chunk_loop]
      rw [ih (k + 1)]
      constructor
      · rintro ⟨m, rfl, h⟩
        exact ⟨m + 1, by omega, by simpa using h⟩
      · rintro ⟨m, rfl, h⟩
        cases m with
        | zero => simp at h
        | succ m =>
          simp only [List.getElem?_cons_succ] at h
          exact ⟨m, by omega, h⟩
    | some v =>
      simp only [web_chunk_loop, List.mem_cons]
      rw [ih (k + 1)]
      constructor
      · rintro (heq | ⟨m, rfl, h⟩)
        · obtain ⟨rfl, rfl⟩ := Prod.mk.injEq .. ▸ heq
          exact ⟨0, by omega, by simp⟩
        · exact ⟨m + 1, by omega, by simpa using h⟩
      · rintro ⟨m, rfl, h⟩
        cases m with
        | zero =>
          simp only [List.getElem?_cons_zero, Option.some.injEq] at h
          left
          simp [h]
        | succ m =>
          simp only [List.getElem?_cons_succ] at h
          right
          exact ⟨m, by omega, h⟩

/-- The harvester variant's chunk loop stops at the first failing chunk: it
equals the crawler loop applied to the longest all-successful prefix. -/
theorem yt_chunk_loop_eq_takeWhile :
    ∀ (res : List (Option String)) (k : Nat),
      yt_chunk_loop k res = web_chunk_loop k (res.takeWhile Option.isSome) := by
  intro res
  induction res with
  | nil => intro k; rfl
  | cons r rest ih =>
    intro k
    cases r with
    | none => rfl
    | some v =>
      simp only [yt_chunk_loop, List.takeWhile, Option.isSome, web_chunk_loop]
      rw [ih (k + 1)]

/-- C4 (amended): in the crawler variant a chunk-level generation failure is
skipped and the worker continues with the remaining chunks of the artifact —
exactly the successful chunks are written, each at its own index, and no
output is written for a failed chunk.  In the harvester variant the failure
escapes to the per-artifact handler, so the remaining chunks of the same
artifact are abandoned (the output is that of the longest failure-free
prefix).  In both variants the outer loop continues with the next queued
artifact: each artifact's output depends only on its own chunk outcomes. -/
theorem C4_worker_chunk_failures :
    (∀ (res : List (Option String)) (i : Nat) (s : String),
        (i, s) ∈ web_chunk_loop 0 res ↔ res[i]? = some (some s))
    ∧ (∀ res : List (Option String),
        yt_chunk_loop 0 res = web_chunk_loop 0 (res.takeWhile Option.isSome))
    ∧ (∀ (f : List (Option String) → List (Nat × String))
        (arts : List (List (Option String))) (j : Nat),
        (process_artifacts f arts)[j]? = (arts[j]?).map f) := by
  refine ⟨?_, fun res => yt_chunk_loop_eq_takeWhile res 0, ?_⟩
  · intro res i s
    rw [web_chunk_loop_mem res 0 i s]
    constructor
    · rintro ⟨m, rfl, h⟩
      simpa using h
    · intro h
      exact ⟨i, by omega, h⟩
  · intro f arts j
    simp [process_artifacts]

/-- C4 counterexample: an artifact with two chunks whose first chunk's
generation raises.  In the harvester variant the worker writes nothing at all
— in particular the second chunk, whose generation would have succeeded with
"s", is never processed — whereas the claim says the worker continues with the
remaining chunks of the same artifact (as the crawler variant indeed does). -/
theorem C4_counterexample :
    yt_chunk_loop 0 [none, some "s"] = []
    ∧ ¬ ((1, "s") ∈ yt_chunk_loop 0 [none, some "s"])
    ∧ web_chunk_loop 0 [none, some "s"] = [(1, "s")] := by
  refine ⟨by decide, by decide, by decide⟩

/-- C6: streaming the three lines carrying response fragment "Hel", response
fragment "lo", and a final done-marked line yields "Hello"; in general each
line's response fragment is appended to the accumulator, a done-marked line
terminates the stream immediately (whatever follows is ignored), and a
malformed line is skipped without aborting the call. -/
theorem C6_generation_stream :
    generate_response true
      [.json (some "Hel") false, .json (some "lo") false, .json none true] = "Hello"
    ∧ (∀ (rest : List StreamLine) (acc r : String),
        iter_lines (.json (some r) false :: rest) acc = iter_lines rest (acc ++ r))
    ∧ (∀ (rest : List StreamLine) (acc r : String),
        iter_lines (.json (some r) true :: rest) acc = acc ++ r)
    ∧ (∀ (rest : List StreamLine) (acc : String),
        iter_lines (.malformed :: rest) acc = iter_lines rest acc) := by
  refine ⟨by decide, ?_, ?_, ?_⟩
  · intro rest acc r
    rfl
  · intro rest acc r
    rfl
  · intro rest acc
    rfl

/-- C10: `generate_response` is a total function into strings (no exception
reaches the caller in the model): a request-level failure returns the empty
string, a stream that ends with an empty accumulator returns the non-empty
sentinel "Failed to generate a response.", and otherwise the accumulated text
is returned; and the worker writes whatever string `summarize` returned —
including the sentinel or the empty string — as the content of the chunk's
summary file, in both variants. -/
theorem C10_generator_never_raises :
    (∀ lines, generate_response false lines = "")
    ∧ (∀ lines,
        (iter_lines lines "" = ""
          ∧ generate_response true lines = "Failed to generate a response.")
        ∨ (iter_lines lines "" ≠ ""
          ∧ generate_response true lines = iter_lines lines ""))
    ∧ ("Failed to generate a response." ≠ "")
    ∧ (∀ s : String, web_chunk_loop 0 [some s] = [(0, s)])
    ∧ (∀ s : String, yt_chunk_loop 0 [some s] = [(0, s)]) := by
  refine ⟨fun lines => rfl, ?_, by decide, fun s => rfl, fun s => rfl⟩
  intro lines
  by_cases h : iter_lines lines "" = ""
  · left
    exact ⟨h, by simp [generate_response, h]⟩
  · right
    exact ⟨h, by simp [generate_response, h]⟩

/-! ## Durable work queue persistence (`save_queue`/`load_queue`,
web_scraper.py 462-494, yt_scraper.py 111-143)

`save_queue` is `json.dump(queue, file)` and `load_queue` is
`json.load(file)`; the queue is a Python list of file-path strings, so the
persisted representation is a JSON array of strings.  The external `json`
library is modelled at the JSON-value level: `save_queue` produces the JSON
array value the file holds, and `load_queue` parses it back, failing on any
other shape. -/

inductive Json where
  | str : String → Json
  | arr : List Json → Json

def save_queue (queue : List String) : Json :=
  .arr (queue.map .str)

def load_strings : List Json → Option (List String)
  | [] => some []
  | .str s :: rest => (load_strings rest).map (fun l => s :: l)
  | .arr _ :: _ => none

def load_queue : Json → Option (List String)
  | .arr js => load_strings js
  | _ => none

/-- `queue.append(ref)` as performed by both source adapters before
`save_queue(queue)`. -/
def enqueue (queue : List String) (ref : String) : List String :=
  queue ++ [ref]

def enqueue_all (queue : List String) (refs : List String) : List String :=
  refs.foldl enqueue queue

/-- C5: reloading the persisted queue is the identity on the queue's list of
references, and after N enqueue operations starting from the empty queue
(each enqueue being followed by a save, of which only the last determines the
file contents) the reloaded queue holds exactly the N enqueued entries in
their original FIFO order. -/
theorem C5_queue_durability :
    (∀ q : List String, load_queue (save_queue q) = some q)
    ∧ (∀ refs : List String,
        enqueue_all [] refs = refs
        ∧ load_queue (save_queue (enqueue_all [] refs)) = some refs) := by
  have hload : ∀ q : List String, load_queue (save_queue q) = some q := by
    intro q
    induction q with
    | nil => rfl
    | cons r rest ih =>
      simp only [save_queue, load_queue, List.map_cons, load_strings] at *
      simp [ih]
  have hall : ∀ (refs q : List String), enqueue_all q refs = q ++ refs := by
    intro refs
    induction refs with
    | nil => intro q; simp [enqueue_all]
    | cons r rest ih =>
      intro q
      simp only [enqueue_all, List.foldl_cons] at *
      rw [ih (enqueue q r)]
      simp [enqueue]
  refine ⟨hload, fun refs => ⟨by simpa using hall refs [], ?_⟩⟩
  rw [show enqueue_all [] refs = refs by simpa using hall refs []]
  exact hload refs

/-! ## Running-average telemetry (`process_queue`, web_scraper.py 360-371,
yt_scraper.py 394-404)

Elapsed times are Python floats; the updates here involve only small exact
values, modelled over the rationals.  `update_avg_summary_time` is the
per-chunk update: the source first increments `total_summaries` and then sets
`avg = (avg * (total_summaries - 1) + elapsed) / total_summaries`. -/

def update_avg_summary_time (avg : ℚ) (total_summaries : Nat) (elapsed : ℚ) : ℚ :=
  (avg * ((total_summaries : ℚ) - 1) + elapsed) / (total_summaries : ℚ)

/-- Feeding a list of latencies through the incremental update, threading the
incremented `total_summaries` counter exactly as the worker does. -/
def run_summary_avg (latencies : List ℚ) : ℚ × Nat :=
  latencies.foldl
    (fun p e =>
      let n := p.2 + 1
      (update_avg_summary_time p.1 n e, n))
    (0, 0)

/-- The harvester worker's per-item update (yt_scraper.py 401-403): it
multiplies and divides by `total_videos` with no zero guard; `none` models
the `ZeroDivisionError` raised when `total_videos = 0`. -/
def yt_update_avg_queue_entry_time (avg : ℚ) (total_videos : Nat) (elapsed : ℚ) : Option ℚ :=
  if total_videos = 0 then none
  else some ((avg * (total_videos : ℚ) + elapsed) / (total_videos : ℚ))

/-- The crawler worker's per-item update (web_scraper.py 367-371): the
division is guarded by `queue_size > 0`; when the guard fails the average is
left unchanged and no division is performed. -/
def web_update_avg_queue_entry_time (avg : ℚ) (queue_size : Nat) (elapsed : ℚ) : Option ℚ :=
  if queue_size > 0 then some ((avg * (queue_size : ℚ) + elapsed) / (queue_size : ℚ))
  else some avg

/-- C7: the incremental update applied sequentially with n = 1, 2, 3 to the
latencies [2, 4, 6] starting from average 0 yields exactly 4, the closed-form
arithmetic mean (2 + 4 + 6) / 3. -/
theorem C7_running_average :
    run_summary_avg [2, 4, 6] = (4, 3)
    ∧ (run_summary_avg [2, 4, 6]).1 = (2 + 4 + 6) / 3 := by
  constructor
  · simp [run_summary_avg, update_avg_summary_time]
    norm_num
  · simp [run_summary_avg, update_avg_summary_time]
    norm_num

/-- C9: the harvester worker's per-item running-average update divides by
`total_videos` with no zero guard, so finishing an item while `total_videos`
is 0 (for example after a restart that reloads a persisted queue before any
new video is saved) raises a division-by-zero error; the crawler variant's
corresponding update is guarded by `queue_size > 0` and always succeeds. -/
theorem C9_entry_average_zero_division :
    (∀ (avg e : ℚ), yt_update_avg_queue_entry_time avg 0 e = none)
    ∧ (∀ (avg : ℚ) (n : Nat) (e : ℚ),
        (web_update_avg_queue_entry_time avg n e).isSome) := by
  constructor
  · intro avg e
    rfl
  · intro avg n e
    by_cases h : n > 0 <;> simp [web_update_avg_queue_entry_time, h]

/-! ## Keyword harvester (`yt_scraper.py`)

External lookups are modelled as oracles: `details` stands for
`get_video_details` (lines 188-231: it catches its own exceptions and returns
`None` on any failure, mutating nothing), `transcripts` for the
`YouTubeTranscriptApi` result consumed by `download_transcript` (`none` means
the API raised or no English transcript exists — both source paths add the
video to the failed cache), and `writeOk` for whether the file write inside
`save_as_text` succeeds.  The state carries both persisted caches, the queue,
the saved artifacts, and a log recording, for each candidate whose external
lookup was issued, the queue length at that moment. -/

structure VideoDetails where
  title : String
  description : String
  tags : List String
  views : Nat
  likes : Nat
deriving DecidableEq

structure YtState where
  cached : List String
  failed : List String
  queue : List String
  artifacts : List (String × String)
  log : List (String × Nat)
deriving DecidableEq

/-- `download_transcript` (yt_scraper.py 164-184): a video already in the
failed cache is skipped; a fetched English transcript is returned unchanged;
any failure (exception or no English transcript) records the video in the
failed cache (persisted) and yields nothing. -/
def download_transcript (video_id : String) (failed_cache : List String)
    (fetched : Option (List String)) : Option (List String) × List String :=
  if video_id ∈ failed_cache then (none, failed_cache)
  else
    match fetched with
    | some t => (some t, failed_cache)
    | none => (none, failed_cache ++ [video_id])

/-- `save_as_text` (yt_scraper.py 234-278): composes metadata and transcript
into one text artifact and returns its path and content. -/
def save_as_text (video_id : String) (d : VideoDetails) (transcript : List String)
    (output_dir : String) : String × String :=
  (output_dir ++ "/" ++ video_id ++ ".txt",
   String.intercalate "\n"
     (["Title: " ++ d.title,
       "Description: " ++ d.description,
       "Tags: " ++ String.intercalate ", " d.tags,
       "Views: " ++ toString d.views,
       "Likes: " ++ toString d.likes,
       "Transcript:"] ++ transcript))

/-- The body of the per-candidate loop of `search_and_download_videos`
(yt_scraper.py 316-332): skip cached or failed candidates; fetch metadata
(on failure just continue — note: no cache mutation); fetch the transcript
through `download_transcript` (failure records the failed cache); only when
both succeed compose and save the artifact, enqueue its path, and add the
video to the visited cache. -/
def process_video (details : String → Option VideoDetails)
    (transcripts : String → Option (List String))
    (writeOk : String → Bool) (output_dir : String)
    (video_id : String) (s : YtState) : YtState :=
  if video_id ∈ s.cached ∨ video_id ∈ s.failed then s
  else
    let s1 : YtState := { s with log := s.log ++ [(video_id, s.queue.length)] }
    match details video_id with
    | none => s1
    | some d =>
        let tr := download_transcript video_id s1.failed (transcripts video_id)
        let s2 : YtState := { s1 with failed := tr.2 }
        match tr.1 with
        | none => s2
        | some t =>
            if writeOk video_id then
              let art := save_as_text video_id d t output_dir
              { s2 with
                  artifacts := s2.artifacts ++ [art],
                  queue := s2.queue ++ [art.1],
                  cached := s2.cached ++ [video_id] }
            else s2

/-- The candidate loop of `search_and_download_videos` (yt_scraper.py
312-332).  The `while len(queue) >= 100: time.sleep(60)` guard runs before
each candidate; in this producer-only model a full queue never drains, so
reaching the cap halts the loop (with a concurrent worker, resuming equals
re-running the loop on the remaining candidates with the drained queue). -/
def search_and_download_videos (details : String → Option VideoDetails)
    (transcripts : String → Option (List String))
    (writeOk : String → Bool) (output_dir : String) :
    List String → YtState → YtState
  | [], s => s
  | vid :: rest, s =>
      if s.queue.length ≥ 100 then s
      else
        search_and_download_videos details transcripts writeOk output_dir rest
          (process_video details transcripts writeOk output_dir vid s)

/-- Processing one candidate either leaves the fetch log unchanged (candidate
already cached or failed) or appends exactly one entry recording the queue
length at the moment of the external lookup. -/
theorem process_video_log (details : String → Option VideoDetails)
    (transcripts : String → Option (List String))
    (writeOk : String → Bool) (output_dir : String)
    (vid : String) (s : YtState) :
    (process_video details transcripts writeOk output_dir vid s).log = s.log
    ∨ (process_video details transcripts writeOk output_dir vid s).log
        = s.log ++ [(vid, s.queue.length)] := by
  unfold process_video
  by_cases h : vid ∈ s.cached ∨ vid ∈ s.failed
  · rw [if_pos h]
    left
    rfl
  · rw [if_neg h]
    cases details vid with
    | none => right; rfl
    | some d =>
      simp only
      cases htr : (download_transcript vid s.failed (transcripts vid)).1 with
      | none => right; rfl
      | some t =>
        right
        dsimp only
        by_cases hw : writeOk vid = true
        · rw [if_pos hw]
        · rw [if_neg hw]

/-- In the harvester, every external lookup is issued with the queue strictly
below the cap of 100: the per-candidate guard halts the loop before any
further fetch once the cap is reached. -/
theorem yt_backpressure (details : String → Option VideoDetails)
    (transcripts : String → Option (List String))
    (writeOk : String → Bool) (output_dir : String) :
    ∀ (vids : List String) (s : YtState),
      (∀ p ∈ s.log, p.2 < 100) →
      ∀ p ∈ (search_and_download_videos details transcripts writeOk output_dir vids s).log,
        p.2 < 100 := by
  intro vids
  induction vids with
  | nil => intro s hs; exact hs
  | cons vid rest ih =>
    intro s hs
    simp only [search_and_download_videos]
    by_cases hq : s.queue.length ≥ 100
    · rw [if_pos hq]
      exact hs
    · rw [if_neg hq]
      apply ih
      rcases process_video_log details transcripts writeOk output_dir vid s with h | h
      · rw [h]
        exact hs
      · rw [h]
        intro p hp
        rcases List.mem_append.mp hp with hp1 | hp2
        · exact hs p hp1
        · simp only [List.mem_singleton] at hp2
          subst hp2
          simpa using by omega

/-! ## Domain crawler (`scrape_domain`, web_scraper.py 146-225)

`fetch` stands for `get_all_links_and_text` (lines 106-144): `none` is a
transient source failure (network exception or non-2xx status, where the
function returns `(None, None)`), `some (text, links)` the extracted page text
and outgoing links.  `filter_links` stands for `filter_links_by_segments`
applied to the fixed base domain and excluded segments, and `clean` for the
boilerplate-stripping `re.sub`; both are external-parsing helpers taken as
parameters.  The Python frontier is a set popped in arbitrary order; it is
modelled as a list popped at the head (one linearization of the set order),
with set union rendered as appending the links not already present.  The log
records each fetched URL with the queue length at fetch time. -/

structure WebState where
  queue : List String
  cache : List String
  to_visit : List String
  artifacts : List (String × String)
  log : List (String × Nat)
deriving DecidableEq

/-- The `while to_visit and len(cache) < max_pages` loop of `scrape_domain`
(web_scraper.py 193-221), with fuel making the recursion structural: pop a
frontier URL, skip it if visited, otherwise fetch it; on success save the
cleaned artifact and enqueue its path (when the text is non-empty) and merge
the filtered links into the frontier (when links were found); in every
non-skip case — including a failed fetch — add the URL to the visited cache. -/
def crawl_loop (fetch : String → Option (String × List String))
    (filter_links : List String → List String)
    (clean : String → String)
    (output_dir : String) (max_pages : Nat) : Nat → WebState → WebState
  | 0, s => s
  | fuel + 1, s =>
      match s.to_visit with
      | [] => s
      | current_url :: rest =>
          if s.cache.length ≥ max_pages then s
          else if current_url ∈ s.cache then
            crawl_loop fetch filter_links clean output_dir max_pages fuel
              { s with to_visit := rest }
          else
            let s1 : WebState :=
              { s with to_visit := rest, log := s.log ++ [(current_url, s.queue.length)] }
            match fetch current_url with
            | none =>
                crawl_loop fetch filter_links clean output_dir max_pages fuel
                  { s1 with cache := s1.cache ++ [current_url] }
            | some (text, links) =>
                let s2 : WebState :=
                  if text ≠ "" then
                    let file_name := output_dir ++ "/" ++ toString s1.cache.length ++ ".txt"
                    { s1 with
                        artifacts := s1.artifacts ++
                          [(file_name, "URL: " ++ current_url ++ "\n\n" ++ clean text)],
                        queue := s1.queue ++ [file_name] }
                  else s1
                let new_links :=
                  (filter_links links).filter
                    (fun l => !(s2.cache.contains l) && !(s2.to_visit.contains l))
                let s3 : WebState :=
                  if links ≠ [] then { s2 with to_visit := s2.to_visit ++ new_links }
                  else s2
                crawl_loop fetch filter_links clean output_dir max_pages fuel
                  { s3 with cache := s3.cache ++ [current_url] }

/-- `scrape_domain` (web_scraper.py 146-225): the queue-cap check
`while len(queue) >= 100: time.sleep(60)` runs once, at function entry, before
the crawl loop; in this producer-only model a full queue at entry never
drains, so the call blocks (`none`).  Past the entry check the crawl runs with
no further cap check.  The seed URL is taken already fragment-stripped. -/
def scrape_domain (fetch : String → Option (String × List String))
    (filter_links : List String → List String)
    (clean : String → String)
    (output_dir : String) (max_pages fuel : Nat)
    (base_url : String) (queue0 cache0 : List String) : Option WebState :=
  if queue0.length ≥ 100 then none
  else some (crawl_loop fetch filter_links clean output_dir max_pages fuel
    { queue := queue0, cache := cache0, to_visit := [base_url],
      artifacts := [], log := [] })

/-- A two-page site: the seed "A" links to "B", "B" links nowhere, everything
else is unreachable. -/
def fetch_two_pages : String → Option (String × List String) :=
  fun u =>
    if u = "A" then some ("t", ["B"])
    else if u = "B" then some ("t", [])
    else none

/-- A source on which every fetch fails transiently. -/
def fetch_fails : String → Option (String × List String) := fun _ => none

/-- C2 (amended): only the keyword harvester checks the queue length before
fetching each next candidate, so all of its fetches are issued with queue
length strictly below the cap of 100; the domain crawler checks the cap once,
at entry to `scrape_domain` (issuing no fetch at all while the queue starts at
or above the cap), and performs no per-candidate recheck inside the crawl
loop. -/
theorem C2_backpressure (fetch : String → Option (String × List String))
    (filter_links : List String → List String) (clean : String → String)
    (output_dir : String) (max_pages fuel : Nat) (base_url : String)
    (queue0 cache0 : List String)
    (details : String → Option VideoDetails)
    (transcripts : String → Option (List String))
    (writeOk : String → Bool) (yt_output_dir : String)
    (vids : List String) (s : YtState)
    (hq : queue0.length ≥ 100) (hs : ∀ p ∈ s.log, p.2 < 100) :
    scrape_domain fetch filter_links clean output_dir max_pages fuel
        base_url queue0 cache0 = none
    ∧ ∀ p ∈ (search_and_download_videos details transcripts writeOk
          yt_output_dir vids s).log, p.2 < 100 := by
  constructor
  · unfold scrape_domain
    rw [if_pos hq]
  · exact yt_backpressure details transcripts writeOk yt_output_dir vids s hs

/-- C2 witness: the crawler blocked at entry on a queue of 100 entries, and
the harvester run on one candidate from the empty state keeps all logged
fetches below the cap. -/
theorem C2_backpressure_witness :
    ((List.replicate 100 "q").length ≥ 100
      ∧ (∀ p ∈ (YtState.log ⟨[], [], [], [], []⟩), p.2 < 100))
    ∧ (scrape_domain fetch_two_pages id id "out" 100 10 "A"
          (List.replicate 100 "q") [] = none
      ∧ ∀ p ∈ (search_and_download_videos (fun _ => none) (fun _ => none)
            (fun _ => true) "out" ["v"] ⟨[], [], [], [], []⟩).log, p.2 < 100) :=
  ⟨⟨by decide, by decide⟩,
    C2_backpressure fetch_two_pages id id "out" 100 10 "A"
      (List.replicate 100 "q") [] (fun _ => none) (fun _ => none)
      (fun _ => true) "out" ["v"] ⟨[], [], [], [], []⟩ (by decide) (by decide)⟩

/-- C2 counterexample: starting the crawl with 99 queued entries (below the
cap, so the entry check passes), fetching the seed "A" enqueues its artifact
and brings the queue to the cap of 100 — and the crawler nevertheless fetches
the next candidate "B" with the queue length at 100, because no queue-length
check happens inside the crawl loop.  This refutes the claim that in both
variants no new fetch is issued while the queue length is at or above the
cap. -/
theorem C2_counterexample :
    (scrape_domain fetch_two_pages id id "out" 100 10 "A"
        (List.replicate 99 "q") []).map WebState.log =
      some [("A", 99), ("B", 100)]
    ∧ ¬ (100 < 100) := by
  constructor
  · decide
  · decide

/-- C3 (amended): when a candidate's fetch fails transiently, the crawler logs
the failure and moves on without saving an artifact or enqueuing anything —
but it does add the candidate's URL to the visited cache (the unconditional
`cache.add(current_url)` at web_scraper.py 218), so the URL will never be
retried; this variant has no failed cache at all.  The failing iteration
changes exactly: frontier popped, fetch logged, URL appended to the visited
cache — queue and artifacts untouched. -/
theorem C3_transient_failure (fetch : String → Option (String × List String))
    (filter_links : List String → List String)
    (clean : String → String)
    (output_dir : String) (max_pages fuel : Nat)
    (s : WebState) (u : String) (rest : List String)
    (hv : s.to_visit = u :: rest) (hc : u ∉ s.cache)
    (hm : s.cache.length < max_pages) (hf : fetch u = none) :
    crawl_loop fetch filter_links clean output_dir max_pages (fuel + 1) s =
      crawl_loop fetch filter_links clean output_dir max_pages fuel
        { s with to_visit := rest,
                 cache := s.cache ++ [u],
                 log := s.log ++ [(u, s.queue.length)] } := by
  conv_lhs => rw [crawl_loop]
  rw [hv]
  dsimp only
  rw [if_neg (by omega), if_neg hc, hf]

/-- C3 witness: the failing-fetch iteration instantiated at the concrete
frontier ["A"] with empty caches. -/
theorem C3_transient_failure_witness :
    ((WebState.mk [] [] ["A"] [] []).to_visit = "A" :: []
      ∧ "A" ∉ (WebState.mk [] [] ["A"] [] []).cache
      ∧ (WebState.mk [] [] ["A"] [] []).cache.length < 100
      ∧ fetch_fails "A" = none)
    ∧ crawl_loop fetch_fails id id "out" 100 4 (WebState.mk [] [] ["A"] [] []) =
        crawl_loop fetch_fails id id "out" 100 3
          (WebState.mk [] ["A"] [] [] [("A", 0)]) :=
  ⟨⟨by decide, by decide, by decide, rfl⟩,
    C3_transient_failure fetch_fails id id "out" 100 3
      (WebState.mk [] [] ["A"] [] []) "A" [] rfl (by decide) (by decide) rfl⟩

/-- C3 counterexample: the seed "A" is fetched, the fetch fails transiently,
and the crawl finishes with "A" in the visited cache even though both caches
started empty and the claim says neither cache may gain the candidate after a
transient failure (the queue confirms nothing was produced for "A"). -/
theorem C3_counterexample :
    (scrape_domain fetch_fails id id "out" 100 5 "A" [] []).map WebState.cache =
      some ["A"]
    ∧ (scrape_domain fetch_fails id id "out" 100 5 "A" [] []).map WebState.queue =
      some []
    ∧ "A" ∉ ([] : List String) := by
  refine ⟨by decide, by decide, by decide⟩

/-- C8 (amended): for a candidate in neither cache, an unavailable transcript
(with metadata available) records the candidate in the failed cache and
discovery continues; an unavailable metadata lookup, however, merely skips the
candidate — neither cache is touched, nothing is enqueued, no artifact is
written; and only when both metadata and transcript are available (and the
file write succeeds) is the composed text artifact saved, its path enqueued,
and the candidate added to the visited cache. -/
theorem C8_harvester_failures (details : String → Option VideoDetails)
    (transcripts : String → Option (List String))
    (writeOk : String → Bool) (output_dir : String)
    (vid : String) (s : YtState)
    (hc : vid ∉ s.cached) (hf : vid ∉ s.failed) :
    (details vid = none →
      process_video details transcripts writeOk output_dir vid s =
        { s with log := s.log ++ [(vid, s.queue.length)] })
    ∧ (∀ d, details vid = some d → transcripts vid = none →
        process_video details transcripts writeOk output_dir vid s =
          { s with failed := s.failed ++ [vid],
                   log := s.log ++ [(vid, s.queue.length)] })
    ∧ (∀ d t, details vid = some d → transcripts vid = some t → writeOk vid = true →
        process_video details transcripts writeOk output_dir vid s =
          { s with cached := s.cached ++ [vid],
                   queue := s.queue ++ [(save_as_text vid d t output_dir).1],
                   artifacts := s.artifacts ++ [save_as_text vid d t output_dir],
                   log := s.log ++ [(vid, s.queue.length)] }) := by
  have hnot : ¬ (vid ∈ s.cached ∨ vid ∈ s.failed) := by
    rintro (h | h)
    · exact hc h
    · exact hf h
  refine ⟨?_, ?_, ?_⟩
  · intro hd
    simp only [process_video, if_neg hnot, hd]
  · intro d hd ht
    simp only [process_video, if_neg hnot, hd, download_transcript, ht]
    rw [if_neg hf]
  · intro d t hd ht hw
    simp only [process_video, if_neg hnot, hd, download_transcript, ht]
    rw [if_neg hf]
    simp only [hw, if_pos]

/-- C8 witness: the per-candidate characterization instantiated at candidate
"v" with empty caches and failing oracles. -/
theorem C8_harvester_failures_witness :
    ("v" ∉ (YtState.mk [] [] [] [] []).cached
      ∧ "v" ∉ (YtState.mk [] [] [] [] []).failed)
    ∧ (((fun (_ : String) => (none : Option VideoDetails)) "v" = none →
        process_video (fun _ => none) (fun _ => none) (fun _ => true) "out" "v"
            (YtState.mk [] [] [] [] []) =
          { YtState.mk [] [] [] [] [] with
              log := (YtState.mk [] [] [] [] []).log ++
                [("v", (YtState.mk [] [] [] [] []).queue.length)] })
      ∧ (∀ d, (fun (_ : String) => (none : Option VideoDetails)) "v" = some d →
          (fun (_ : String) => (none : Option (List String))) "v" = none →
          process_video (fun _ => none) (fun _ => none) (fun _ => true) "out" "v"
              (YtState.mk [] [] [] [] []) =
            { YtState.mk [] [] [] [] [] with
                failed := (YtState.mk [] [] [] [] []).failed ++ ["v"],
                log := (YtState.mk [] [] [] [] []).log ++
                  [("v", (YtState.mk [] [] [] [] []).queue.length)] })
      ∧ (∀ d t, (fun (_ : String) => (none : Option VideoDetails)) "v" = some d →
          (fun (_ : String) => (none : Option (List String))) "v" = some t →
          (fun (_ : String) => true) "v" = true →
          process_video (fun _ => none) (fun _ => none) (fun _ => true) "out" "v"
              (YtState.mk [] [] [] [] []) =
            { YtState.mk [] [] [] [] [] with
                cached := (YtState.mk [] [] [] [] []).cached ++ ["v"],
                queue := (YtState.mk [] [] [] [] []).queue ++
                  [(save_as_text "v" d t "out").1],
                artifacts := (YtState.mk [] [] [] [] []).artifacts ++
                  [save_as_text "v" d t "out"],
                log := (YtState.mk [] [] [] [] []).log ++
                  [("v", (YtState.mk [] [] [] [] []).queue.length)] })) :=
  ⟨⟨by decide, by decide⟩,
    C8_harvester_failures (fun _ => none) (fun _ => none) (fun _ => true) "out"
      "v" (YtState.mk [] [] [] [] []) (by decide) (by decide)⟩

/-- C8 counterexample: candidate "v" is in neither cache and its metadata
lookup fails.  The harvester merely logs the lookup and skips the candidate:
the failed cache stays empty, refuting the claim that an unavailable metadata
lookup records the candidate in the failed cache. -/
theorem C8_counterexample :
    process_video (fun _ => none) (fun _ => none) (fun _ => true) "out" "v"
        ⟨[], [], [], [], []⟩ = ⟨[], [], [], [], [("v", 0)]⟩
    ∧ "v" ∉ (YtState.mk [] [] [] [] [("v", 0)]).failed := by
  constructor
  · decide
  · decide

end RAGStack
